import Mathlib

/-!
Shallow embedding of `handlers/pod.py` from the cloudlinux/k8s-policy
repository: a Kubernetes pod-event handler that mirrors pod label changes
into a network-policy datastore.

Python dictionaries are modelled as `Finmap`s, whose equality is extensional
and order-insensitive, matching Python `==` on `dict`.  The module-level
caches (`label_cache`, `endpoint_cache`) together with the external
datastore contents form an explicit `HState`; every datastore call a handler
makes is recorded in an explicit trace of `DatastoreCall`s.  External
collaborators (`constants`, `netaddr`, `pycalico`) are not part of the
repository and are modelled from the spec where noted.
-/

/-- A Python `dict` from `str` to `str` (a pod label set). -/
abbrev Labels := Finmap (fun _ : String => String)

/-- Modelled from the spec: the reserved namespace label key
(`K8S_NAMESPACE_LABEL`), imported by the source from the external
`constants` module, which is not part of this repository.  The handlers
only use it as a fixed string. -/
def K8S_NAMESPACE_LABEL : String := "calico/k8s_ns"

/-- Modelled from the spec: an internal network prefix as represented by the
external `netaddr` library's `IPNetwork` (not part of this repository): the
address part (`.ip`, rendered by `str`) plus a prefix length. -/
structure IPNetwork where
  ip : String
  prefixlen : Nat
deriving DecidableEq, Repr

/-- One entry of the derived NAT mapping, the dict
`{"int_ip": ..., "ext_ip": ...}` built in `process_labels`. -/
structure NatMapEntry where
  int_ip : String
  ext_ip : String
deriving DecidableEq, Repr

/-- Modelled from the spec: the base endpoint record of the external
`pycalico.datastore_datatypes.Endpoint` class (not part of this repository):
host, orchestrator tag, workload id, endpoint id, state, hardware address,
interface name, IPv4/IPv6 network prefixes, profile identifiers and a label
set. -/
structure Endpoint where
  hostname : String
  orchestrator_id : String
  workload_id : String
  endpoint_id : String
  state : String
  mac : String
  name : String
  ipv4_nets : List IPNetwork
  ipv6_nets : List String
  profile_ids : List String
  labels : Labels
deriving DecidableEq

/-- `KDEndpoint`: the source's subclass of `Endpoint` carrying the extra
derived `ipv4_nat` field (initialized to `None` by `__init__`). -/
structure KDEndpoint extends Endpoint where
  ipv4_nat : Option (List NatMapEntry)
deriving DecidableEq

/-- Decimal value of a digit string (used only on all-digit strings). -/
def digitsVal (l : List Char) : Nat :=
  l.foldl (fun n c => n * 10 + (c.toNat - 48)) 0

/-- Splits a character list on the dot character. -/
def splitOnDot : List Char → List (List Char)
  | [] => [[]]
  | c :: rest =>
      let r := splitOnDot rest
      if c = '.' then [] :: r
      else
        match r with
        | [] => [[c]]
        | h :: t => (c :: h) :: t

/-- Modelled from the spec: the external `netaddr.IPAddress` syntactic
validity check applied in `process_labels` (`netaddr` is not part of this
repository).  Per the spec the label value must be "a syntactically valid IP
address": four dot-separated decimal octets, each between 0 and 255. -/
def isValidIP (s : String) : Bool :=
  let parts := splitOnDot s.toList
  parts.length == 4 && parts.all fun p =>
    decide (0 < p.length) && decide (p.length ≤ 3) &&
      p.all Char.isDigit && decide (digitsVal p ≤ 255)

/-- `KDEndpoint.process_labels`: derives the `ipv4_nat` field from the label
set and the IPv4 network prefixes.  The source mutates `self`; this is
modelled as returning the updated endpoint.  An empty (falsy) label set
clears the mapping; otherwise the `kuberdock-public-ip` label value is kept
only if it is a valid IP address (the bare `except` catches both a missing
value and an invalid one), and a kept value yields one entry per IPv4
network prefix. -/
def KDEndpoint.process_labels (e : KDEndpoint) : KDEndpoint :=
  if e.labels = ∅ then { e with ipv4_nat := none }
  else
    let kd_public_ip := e.labels.lookup "kuberdock-public-ip"
    let kd_public_ip :=
      match kd_public_ip with
      | some v => if isValidIP v then some v else none
      | none => none
    match kd_public_ip with
    | some v =>
        { e with ipv4_nat := some (e.ipv4_nets.map fun ip_net => ⟨ip_net.ip, v⟩) }
    | none => { e with ipv4_nat := none }

/-- The JSON object produced by `KDEndpoint.to_json`, as a structured value:
the data of the parent-class serialization plus the optional `ipv4_nat` key.
The `base` component is modelled from the spec: the parent
`Endpoint.to_json` (external `pycalico`) serializes exactly the base
record's data. -/
structure EndpointJson where
  base : Endpoint
  ipv4_nat_key : Option (List NatMapEntry)
deriving DecidableEq

/-- `KDEndpoint.to_json`: the parent JSON with the `ipv4_nat` key added
exactly when the field is truthy, i.e. neither `None` nor the empty list. -/
def KDEndpoint.to_json (e : KDEndpoint) : EndpointJson :=
  { base := e.toEndpoint
    ipv4_nat_key :=
      match e.ipv4_nat with
      | some l => if l.isEmpty then none else some l
      | none => none }

/-- `KDEndpoint.from_endpoint`: builds a `KDEndpoint` from a base `Endpoint`
(all fields copied; `__init__` sets `ipv4_nat` to `None`) and then runs
`process_labels`. -/
def KDEndpoint.from_endpoint (ep : Endpoint) : KDEndpoint :=
  KDEndpoint.process_labels { toEndpoint := ep, ipv4_nat := none }

/-- A raw Pod event object: `metadata.namespace` and `metadata.name` (the
required fields) and the optional `metadata.labels` mapping (`none` when the
`labels` key is absent from the metadata). -/
structure Pod where
  metadata_namespace : String
  metadata_name : String
  metadata_labels : Option Labels
deriving DecidableEq

/-- Result of `parse_pod`: the Pod object as it stands after the call (the
source writes the namespace label through the reference obtained from
`pod["metadata"].get("labels", {})`, so a Pod that declared a labels mapping
is mutated in place) together with the returned tuple
`(workload_id, namespace, name, labels)`. -/
structure ParseResult where
  pod_after : Pod
  workload_id : String
  pod_namespace : String
  pod_name : String
  labels : Labels
deriving DecidableEq

/-- `parse_pod`: reads the labels (defaulting to a fresh empty dict),
extracts namespace and name, composes `"<namespace>.<name>"`, and stores the
namespace under the reserved key in the labels dict. -/
def parse_pod (pod : Pod) : ParseResult :=
  let labels0 := pod.metadata_labels.getD ∅
  let pod_namespace := pod.metadata_namespace
  let pod_name := pod.metadata_name
  let workload_id := pod_namespace ++ "." ++ pod_name
  let labels := labels0.insert K8S_NAMESPACE_LABEL pod_namespace
  { pod_after :=
      match pod.metadata_labels with
      | some _ => { pod with metadata_labels := some labels }
      | none => pod
    workload_id := workload_id
    pod_namespace := pod_namespace
    pod_name := pod_name
    labels := labels }

/-- A datastore call made by a handler: a full read (`get_endpoints`) or a
write of one endpoint (`set_endpoint`). -/
inductive DatastoreCall where
  | get_endpoints_call : DatastoreCall
  | set_endpoint_call : KDEndpoint → DatastoreCall
deriving DecidableEq

/-- The process-wide mutable state: the two module-level caches plus the
contents of the external datastore (the stored base endpoint records). -/
@[ext]
structure HState where
  label_cache : Finmap (fun _ : String => Labels)
  endpoint_cache : Finmap (fun _ : String => KDEndpoint)
  datastore : List Endpoint
deriving DecidableEq

/-- Modelled from the spec: the external datastore client's `get_endpoints`,
"returns all endpoint records for a given orchestrator tag". -/
def get_endpoints (orchestrator_id : String) (ds : List Endpoint) : List Endpoint :=
  ds.filter fun e => e.orchestrator_id == orchestrator_id

/-- Modelled from the spec: the external datastore client's `set_endpoint`,
"persist full endpoint record; no return value".  The record replaces any
stored record with the same identity (host, orchestrator tag, workload id,
endpoint id); the stored data is the base record, which is what later
`get_endpoints` reads return. -/
def set_endpoint_store (e : KDEndpoint) (ds : List Endpoint) : List Endpoint :=
  (ds.filter fun x =>
    !(x.hostname == e.hostname && x.orchestrator_id == e.orchestrator_id &&
      x.workload_id == e.workload_id && x.endpoint_id == e.endpoint_id)) ++ [e.toEndpoint]

/-- One iteration of the `load_caches` loop body: store the endpoint in the
endpoint cache and its labels in the label cache, keyed by its workload id. -/
def cacheEndpoint (s : HState) (ep : KDEndpoint) : HState :=
  { s with endpoint_cache := s.endpoint_cache.insert ep.workload_id ep
           label_cache := s.label_cache.insert ep.workload_id ep.labels }

/-- `load_caches`: reads every `"k8s"` endpoint from the datastore, converts
each through `KDEndpoint.from_endpoint` and stores it in both caches (the
loop only writes entries; it never clears the caches first).  Returns the
new state and the datastore calls made. -/
def load_caches (s : HState) : HState × List DatastoreCall :=
  let endpoints := (get_endpoints "k8s" s.datastore).map KDEndpoint.from_endpoint
  (endpoints.foldl cacheEndpoint s, [DatastoreCall.get_endpoints_call])

/-- `add_pod`: stores the parsed labels in the label cache, overwriting any
previous entry; nothing else is touched. -/
def add_pod (s : HState) (pod : Pod) : HState × List DatastoreCall :=
  let r := parse_pod pod
  ({ s with label_cache := s.label_cache.insert r.workload_id r.labels }, [])

/-- The tail of `update_pod` once a cached endpoint has been found: set the
new labels on the endpoint, recompute the NAT mapping with
`process_labels`, persist via `set_endpoint`, and update both caches. -/
def write_endpoint (s : HState) (workload_id : String) (labels : Labels)
    (endpoint : KDEndpoint) : HState × List DatastoreCall :=
  let endpoint := KDEndpoint.process_labels { endpoint with labels := labels }
  ({ label_cache := s.label_cache.insert workload_id labels
     endpoint_cache := s.endpoint_cache.insert workload_id endpoint
     datastore := set_endpoint_store endpoint s.datastore },
   [DatastoreCall.set_endpoint_call endpoint])

/-- `update_pod`: no-op when the parsed labels equal the cached labels;
otherwise looks up the cached endpoint, reloading the caches once from the
datastore if it is absent, and if an endpoint is found writes it back with
the new labels. -/
def update_pod (s : HState) (pod : Pod) : HState × List DatastoreCall :=
  let r := parse_pod pod
  let old_labels := s.label_cache.lookup r.workload_id
  if old_labels = some r.labels then (s, [])
  else
    match s.endpoint_cache.lookup r.workload_id with
    | some endpoint => write_endpoint s r.workload_id r.labels endpoint
    | none =>
        let s1 := (load_caches s).1
        let calls1 := (load_caches s).2
        match s1.endpoint_cache.lookup r.workload_id with
        | none => (s1, calls1)
        | some endpoint =>
            let res := write_endpoint s1 r.workload_id r.labels endpoint
            (res.1, calls1 ++ res.2)

/-- `delete_pod`: removes the workload from both caches; a missing key is
swallowed (`except KeyError: pass`), which `Finmap.erase` models since
erasing an absent key leaves the map unchanged.  No datastore call. -/
def delete_pod (s : HState) (pod : Pod) : HState × List DatastoreCall :=
  let r := parse_pod pod
  ({ s with label_cache := s.label_cache.erase r.workload_id
            endpoint_cache := s.endpoint_cache.erase r.workload_id }, [])

/-- Number of `get_endpoints` calls in a trace. -/
def numReads (calls : List DatastoreCall) : Nat :=
  calls.countP fun c =>
    match c with
    | DatastoreCall.get_endpoints_call => true
    | DatastoreCall.set_endpoint_call _ => false

/-- Number of `set_endpoint` calls in a trace. -/
def numWrites (calls : List DatastoreCall) : Nat :=
  calls.countP fun c =>
    match c with
    | DatastoreCall.get_endpoints_call => false
    | DatastoreCall.set_endpoint_call _ => true

/-- The last endpoint in a list whose workload id is `w` (the entry that a
later cache write with the same key leaves in place). -/
def lastWith : List KDEndpoint → String → Option KDEndpoint
  | [], _ => none
  | ep :: L, w =>
      match lastWith L w with
      | some e => some e
      | none => if ep.workload_id = w then some ep else none

/-- The list of endpoints a cache reload iterates over: every `"k8s"`
endpoint stored in the datastore, converted through `from_endpoint`. -/
def reload_list (s : HState) : List Endpoint :=
  get_endpoints "k8s" s.datastore

/-- A pod label set used in concrete instances. -/
def samplePodLabels : Labels := (∅ : Labels).insert "app" "web"

/-- A concrete pod event carrying a labels mapping. -/
def samplePod : Pod :=
  { metadata_namespace := "default", metadata_name := "pod1",
    metadata_labels := some samplePodLabels }

/-- A concrete pod event with no labels mapping in its metadata. -/
def bareNamespacePod : Pod :=
  { metadata_namespace := "default", metadata_name := "pod1",
    metadata_labels := none }

/-- A concrete endpoint for the workload of `samplePod`. -/
def sampleEndpoint : KDEndpoint :=
  { hostname := "host1", orchestrator_id := "k8s", workload_id := "default.pod1",
    endpoint_id := "ep1", state := "active", mac := "00:11", name := "cali0",
    ipv4_nets := [⟨"10.0.0.5", 32⟩], ipv6_nets := [], profile_ids := [],
    labels := ∅, ipv4_nat := none }

/-- `sampleEndpoint` with a valid public-IP label. -/
def natEndpoint : KDEndpoint :=
  { sampleEndpoint with
    labels := (∅ : Labels).insert "kuberdock-public-ip" "1.2.3.4" }

/-- `sampleEndpoint` with an invalid public-IP label. -/
def badIpEndpoint : KDEndpoint :=
  { sampleEndpoint with
    labels := (∅ : Labels).insert "kuberdock-public-ip" "not-an-ip" }

/-- `natEndpoint` with no internal IPv4 prefixes. -/
def noNetsEndpoint : KDEndpoint := { natEndpoint with ipv4_nets := [] }

/-- A state whose endpoint cache holds `sampleEndpoint` and whose label
cache is empty. -/
def sampleState : HState :=
  { label_cache := ∅,
    endpoint_cache :=
      (∅ : Finmap (fun _ : String => KDEndpoint)).insert "default.pod1" sampleEndpoint,
    datastore := [] }

/-- The state with empty caches and an empty datastore. -/
def emptyState : HState := { label_cache := ∅, endpoint_cache := ∅, datastore := [] }

/-- A state with a label-cache entry for a workload that the (empty)
datastore does not contain. -/
def staleState : HState :=
  { label_cache :=
      (∅ : Finmap (fun _ : String => Labels)).insert "stale.pod" samplePodLabels,
    endpoint_cache := ∅, datastore := [] }

/-- A state whose label cache already holds the parsed labels of
`samplePod` for its workload. -/
def cachedState : HState :=
  { label_cache :=
      (∅ : Finmap (fun _ : String => Labels)).insert "default.pod1"
        (parse_pod samplePod).labels,
    endpoint_cache := ∅, datastore := [] }

/-- The endpoint that `update_pod sampleState samplePod` writes to the
datastore. -/
def writtenEndpoint : KDEndpoint :=
  KDEndpoint.process_labels { sampleEndpoint with labels := (parse_pod samplePod).labels }


/-- `process_labels` only writes the `ipv4_nat` field: the base record is
untouched. -/
lemma process_labels_toEndpoint (e : KDEndpoint) :
    (KDEndpoint.process_labels e).toEndpoint = e.toEndpoint := by
  unfold KDEndpoint.process_labels
  split
  · rfl
  · dsimp only
    split <;> rfl

/-- `process_labels` leaves the label set unchanged. -/
lemma process_labels_labels (e : KDEndpoint) :
    (KDEndpoint.process_labels e).labels = e.labels :=
  congrArg Endpoint.labels (process_labels_toEndpoint e)

lemma foldl_cacheEndpoint_datastore (L : List KDEndpoint) (s : HState) :
    (L.foldl cacheEndpoint s).datastore = s.datastore := by
  induction L generalizing s with
  | nil => rfl
  | cons ep L ih => exact ih (cacheEndpoint s ep)

lemma foldl_cacheEndpoint_ec_lookup (L : List KDEndpoint) (s : HState) (w : String) :
    (L.foldl cacheEndpoint s).endpoint_cache.lookup w =
      match lastWith L w with
      | some ep => some ep
      | none => s.endpoint_cache.lookup w := by
  induction L generalizing s with
  | nil => rfl
  | cons ep L ih =>
      show (L.foldl cacheEndpoint (cacheEndpoint s ep)).endpoint_cache.lookup w = _
      rw [ih]
      cases hL : lastWith L w with
      | some e => simp [lastWith, hL]
      | none =>
          simp only [lastWith, hL]
          by_cases hw : ep.workload_id = w
          · subst hw
            simp [cacheEndpoint, Finmap.lookup_insert]
          · simp [cacheEndpoint, Finmap.lookup_insert_of_ne _ (Ne.symm hw), hw]

lemma foldl_cacheEndpoint_lc_lookup (L : List KDEndpoint) (s : HState) (w : String) :
    (L.foldl cacheEndpoint s).label_cache.lookup w =
      match lastWith L w with
      | some ep => some ep.labels
      | none => s.label_cache.lookup w := by
  induction L generalizing s with
  | nil => rfl
  | cons ep L ih =>
      show (L.foldl cacheEndpoint (cacheEndpoint s ep)).label_cache.lookup w = _
      rw [ih]
      cases hL : lastWith L w with
      | some e => simp [lastWith, hL]
      | none =>
          simp only [lastWith, hL]
          by_cases hw : ep.workload_id = w
          · subst hw
            simp [cacheEndpoint, Finmap.lookup_insert]
          · simp [cacheEndpoint, Finmap.lookup_insert_of_ne _ (Ne.symm hw), hw]

lemma load_caches_fst (s : HState) :
    (load_caches s).1 = (reload_list s |>.map KDEndpoint.from_endpoint).foldl cacheEndpoint s := rfl

lemma load_caches_snd (s : HState) :
    (load_caches s).2 = [DatastoreCall.get_endpoints_call] := rfl

lemma load_caches_datastore (s : HState) :
    (load_caches s).1.datastore = s.datastore :=
  foldl_cacheEndpoint_datastore _ _

lemma load_caches_ec_lookup (s : HState) (w : String) :
    (load_caches s).1.endpoint_cache.lookup w =
      match lastWith (reload_list s |>.map KDEndpoint.from_endpoint) w with
      | some ep => some ep
      | none => s.endpoint_cache.lookup w :=
  foldl_cacheEndpoint_ec_lookup _ _ _

lemma load_caches_lc_lookup (s : HState) (w : String) :
    (load_caches s).1.label_cache.lookup w =
      match lastWith (reload_list s |>.map KDEndpoint.from_endpoint) w with
      | some ep => some ep.labels
      | none => s.label_cache.lookup w :=
  foldl_cacheEndpoint_lc_lookup _ _ _

lemma reload_list_load (s : HState) :
    reload_list (load_caches s).1 = reload_list s := by
  unfold reload_list
  rw [load_caches_datastore]

/-- Reloading twice from an unchanged datastore is the same as reloading
once: the second pass overwrites every entry with the value it already
has. -/
lemma load_caches_idem (s : HState) :
    (load_caches (load_caches s).1).1 = (load_caches s).1 := by
  apply HState.ext
  · apply Finmap.ext_lookup
    intro w
    rw [load_caches_lc_lookup, reload_list_load, load_caches_lc_lookup]
    cases lastWith (reload_list s |>.map KDEndpoint.from_endpoint) w with
    | some e => rfl
    | none => rfl
  · apply Finmap.ext_lookup
    intro w
    rw [load_caches_ec_lookup, reload_list_load, load_caches_ec_lookup]
    cases lastWith (reload_list s |>.map KDEndpoint.from_endpoint) w with
    | some e => rfl
    | none => rfl
  · rw [load_caches_datastore, load_caches_datastore]

lemma write_endpoint_fst_label_cache (s : HState) (w : String) (labels : Labels)
    (endpoint : KDEndpoint) :
    (write_endpoint s w labels endpoint).1.label_cache = s.label_cache.insert w labels := rfl

lemma write_endpoint_fst_endpoint_cache (s : HState) (w : String) (labels : Labels)
    (endpoint : KDEndpoint) :
    (write_endpoint s w labels endpoint).1.endpoint_cache =
      s.endpoint_cache.insert w
        (KDEndpoint.process_labels { endpoint with labels := labels }) := rfl

lemma write_endpoint_snd (s : HState) (w : String) (labels : Labels)
    (endpoint : KDEndpoint) :
    (write_endpoint s w labels endpoint).2 =
      [DatastoreCall.set_endpoint_call
        (KDEndpoint.process_labels { endpoint with labels := labels })] := rfl

/-- `update_pod` when the parsed labels equal the cached labels: the early
`return` with no state change and no datastore call. -/
lemma update_pod_unchanged (s : HState) (pod : Pod)
    (h : s.label_cache.lookup (parse_pod pod).workload_id = some (parse_pod pod).labels) :
    update_pod s pod = (s, []) := by
  unfold update_pod
  simp [h]

/-- `update_pod` when the labels changed and the endpoint cache has the
workload: the write-back path with no reload. -/
lemma update_pod_cached_hit (s : HState) (pod : Pod) (endpoint : KDEndpoint)
    (h : s.label_cache.lookup (parse_pod pod).workload_id ≠ some (parse_pod pod).labels)
    (h2 : s.endpoint_cache.lookup (parse_pod pod).workload_id = some endpoint) :
    update_pod s pod =
      write_endpoint s (parse_pod pod).workload_id (parse_pod pod).labels endpoint := by
  unfold update_pod
  simp [h, h2]

/-- `update_pod` when the labels changed, the endpoint cache misses, and the
reload also fails to produce the endpoint: one reload, then give up. -/
lemma update_pod_reload_miss (s : HState) (pod : Pod)
    (h : s.label_cache.lookup (parse_pod pod).workload_id ≠ some (parse_pod pod).labels)
    (h2 : s.endpoint_cache.lookup (parse_pod pod).workload_id = none)
    (h3 : (load_caches s).1.endpoint_cache.lookup (parse_pod pod).workload_id = none) :
    update_pod s pod = ((load_caches s).1, [DatastoreCall.get_endpoints_call]) := by
  unfold update_pod
  simp only [h, h2, h3, if_neg h]
  rfl

/-- `update_pod` when the labels changed, the endpoint cache misses, and the
reload produces the endpoint: one reload, then the write-back path. -/
lemma update_pod_reload_hit (s : HState) (pod : Pod) (endpoint : KDEndpoint)
    (h : s.label_cache.lookup (parse_pod pod).workload_id ≠ some (parse_pod pod).labels)
    (h2 : s.endpoint_cache.lookup (parse_pod pod).workload_id = none)
    (h3 : (load_caches s).1.endpoint_cache.lookup (parse_pod pod).workload_id = some endpoint) :
    update_pod s pod =
      ((write_endpoint (load_caches s).1 (parse_pod pod).workload_id
          (parse_pod pod).labels endpoint).1,
        DatastoreCall.get_endpoints_call ::
          (write_endpoint (load_caches s).1 (parse_pod pod).workload_id
            (parse_pod pod).labels endpoint).2) := by
  unfold update_pod
  simp [h, h2, h3, load_caches_snd]

/-- `process_labels` with a non-empty label set whose public-IP label is a
valid IP: one NAT entry per IPv4 prefix. -/
lemma process_labels_of_valid (e : KDEndpoint) (h : e.labels ≠ ∅) (v : String)
    (hv : e.labels.lookup "kuberdock-public-ip" = some v)
    (hval : isValidIP v = true) :
    KDEndpoint.process_labels e =
      { e with ipv4_nat := some (e.ipv4_nets.map fun ip_net => ⟨ip_net.ip, v⟩) } := by
  unfold KDEndpoint.process_labels
  simp [h, hv, hval]

/-- `process_labels` with a non-empty label set and no public-IP label:
NAT mapping cleared. -/
lemma process_labels_of_absent (e : KDEndpoint) (h : e.labels ≠ ∅)
    (hv : e.labels.lookup "kuberdock-public-ip" = none) :
    KDEndpoint.process_labels e = { e with ipv4_nat := none } := by
  unfold KDEndpoint.process_labels
  simp [h, hv]

/-- `process_labels` with a non-empty label set whose public-IP label is not
a valid IP: NAT mapping cleared. -/
lemma process_labels_of_invalid (e : KDEndpoint) (h : e.labels ≠ ∅) (v : String)
    (hv : e.labels.lookup "kuberdock-public-ip" = some v)
    (hval : isValidIP v = false) :
    KDEndpoint.process_labels e = { e with ipv4_nat := none } := by
  unfold KDEndpoint.process_labels
  simp [h, hv, hval]

/-- C9: the label set returned by `parse_pod` always contains the reserved
namespace key mapped to the pod's namespace, whatever the pod's declared
labels (even none at all), since the key is stored into the labels dict
unconditionally before returning. -/
theorem C9_namespace_label_injected (pod : Pod) :
    (parse_pod pod).labels.lookup K8S_NAMESPACE_LABEL = some pod.metadata_namespace :=
  Finmap.lookup_insert _

/-- C6: `add_pod` overwrites the label-cache entry for the parsed workload
id with the parsed (namespace-augmented) label set, so afterwards the label
cache maps that id to exactly that label set; the endpoint cache, the
datastore and the datastore-call trace are untouched. -/
theorem C6_add_pod_label_cache (s : HState) (pod : Pod) :
    (add_pod s pod).1.label_cache =
      s.label_cache.insert (parse_pod pod).workload_id (parse_pod pod).labels ∧
    (add_pod s pod).1.label_cache.lookup (parse_pod pod).workload_id =
      some (parse_pod pod).labels ∧
    (add_pod s pod).1.endpoint_cache = s.endpoint_cache ∧
    (add_pod s pod).1.datastore = s.datastore ∧
    (add_pod s pod).2 = [] :=
  ⟨rfl, Finmap.lookup_insert _, rfl, rfl, rfl⟩

/-- C7: `delete_pod` erases the workload from both caches, makes no
datastore call, and — since erasing an absent key is a total no-op — does
not fail when the workload is absent: in that case the state is returned
unchanged. -/
theorem C7_delete_pod_defensive (s : HState) (pod : Pod) :
    (delete_pod s pod).1.label_cache = s.label_cache.erase (parse_pod pod).workload_id ∧
    (delete_pod s pod).1.endpoint_cache = s.endpoint_cache.erase (parse_pod pod).workload_id ∧
    (delete_pod s pod).1.datastore = s.datastore ∧
    (delete_pod s pod).2 = [] ∧
    (s.label_cache.lookup (parse_pod pod).workload_id = none →
     s.endpoint_cache.lookup (parse_pod pod).workload_id = none →
     delete_pod s pod = (s, [])) := by
  refine ⟨rfl, rfl, rfl, rfl, ?_⟩
  intro h1 h2
  have e1 : s.label_cache.erase (parse_pod pod).workload_id = s.label_cache := by
    apply Finmap.ext_lookup
    intro x
    by_cases hx : x = (parse_pod pod).workload_id
    · subst hx
      rw [Finmap.lookup_erase, h1]
    · rw [Finmap.lookup_erase_ne hx]
  have e2 : s.endpoint_cache.erase (parse_pod pod).workload_id = s.endpoint_cache := by
    apply Finmap.ext_lookup
    intro x
    by_cases hx : x = (parse_pod pod).workload_id
    · subst hx
      rw [Finmap.lookup_erase, h2]
    · rw [Finmap.lookup_erase_ne hx]
  show (({ label_cache := s.label_cache.erase (parse_pod pod).workload_id,
           endpoint_cache := s.endpoint_cache.erase (parse_pod pod).workload_id,
           datastore := s.datastore } : HState), ([] : List DatastoreCall)) = (s, [])
  rw [e1, e2]

/-- Closed instance of C7 at a pod absent from both (empty) caches. -/
theorem C7_delete_pod_defensive_witness :
    emptyState.label_cache.lookup (parse_pod samplePod).workload_id = none ∧
    delete_pod emptyState samplePod = (emptyState, []) :=
  ⟨rfl, (C7_delete_pod_defensive emptyState samplePod).2.2.2.2 rfl rfl⟩

/-- C5 fails on the code: `parse_pod` writes the namespace label through the
reference it obtained from the pod's metadata, so a pod that declared a
labels mapping is mutated in place.  At this concrete pod the event object
after the call differs from the one passed in. -/
theorem C5_counterexample : (parse_pod samplePod).pod_after ≠ samplePod := by
  decide

/-- C5 (amended): `parse_pod` touches no process-wide state and returns
`(workload id, namespace, name, namespace-augmented label set)`; its only
side effect is on the input pod object itself — when the pod declares a
labels mapping, the namespace key is injected into that mapping in place,
and only a pod that declared no labels mapping is left unchanged. -/
theorem C5_parse_pod_effects (pod : Pod) :
    (parse_pod pod).workload_id = pod.metadata_namespace ++ "." ++ pod.metadata_name ∧
    (parse_pod pod).pod_namespace = pod.metadata_namespace ∧
    (parse_pod pod).pod_name = pod.metadata_name ∧
    (parse_pod pod).labels =
      (pod.metadata_labels.getD ∅).insert K8S_NAMESPACE_LABEL pod.metadata_namespace ∧
    (parse_pod pod).pod_after =
      { pod with
          metadata_labels := pod.metadata_labels.map
            (fun d => d.insert K8S_NAMESPACE_LABEL pod.metadata_namespace) } ∧
    (pod.metadata_labels = none → (parse_pod pod).pod_after = pod) := by
  obtain ⟨ns, nm, ls⟩ := pod
  cases ls with
  | none => exact ⟨rfl, rfl, rfl, rfl, rfl, fun _ => rfl⟩
  | some d => exact ⟨rfl, rfl, rfl, rfl, rfl, fun h => nomatch h⟩

/-- Closed instance of C5 (amended) at a pod with no labels mapping. -/
theorem C5_parse_pod_effects_witness :
    bareNamespacePod.metadata_labels = none ∧
    (parse_pod bareNamespacePod).pod_after = bareNamespacePod :=
  ⟨rfl, (C5_parse_pod_effects bareNamespacePod).2.2.2.2.2 rfl⟩

/-- C2: for an endpoint with a non-empty label set, `process_labels` sets
the NAT mapping to exactly one entry per internal IPv4 network prefix —
pairing the prefix's address (`int_ip`) with the public IP (`ext_ip`) —
when the `kuberdock-public-ip` label holds a syntactically valid IP
address, and clears the mapping (`None`) when that label is absent or its
value is invalid (no exception escapes: the invalid value is dropped). -/
theorem C2_process_labels_nat (e : KDEndpoint) (h : e.labels ≠ ∅) :
    (∀ v, e.labels.lookup "kuberdock-public-ip" = some v → isValidIP v = true →
        (KDEndpoint.process_labels e).ipv4_nat =
          some (e.ipv4_nets.map fun ip_net => ⟨ip_net.ip, v⟩)) ∧
    (e.labels.lookup "kuberdock-public-ip" = none →
        (KDEndpoint.process_labels e).ipv4_nat = none) ∧
    (∀ v, e.labels.lookup "kuberdock-public-ip" = some v → isValidIP v = false →
        (KDEndpoint.process_labels e).ipv4_nat = none) := by
  refine ⟨fun v hv hval => ?_, fun hv => ?_, fun v hv hval => ?_⟩
  · rw [process_labels_of_valid e h v hv hval]
  · rw [process_labels_of_absent e h hv]
  · rw [process_labels_of_invalid e h v hv hval]

/-- Closed instance of C2: the spec's own examples.  With label
`kuberdock-public-ip = "1.2.3.4"` and internal prefix `10.0.0.5/32` the NAT
mapping is `[(10.0.0.5, 1.2.3.4)]`; with value `"not-an-ip"` it is `None`. -/
theorem C2_process_labels_nat_witness :
    (KDEndpoint.process_labels natEndpoint).ipv4_nat =
      some [{ int_ip := "10.0.0.5", ext_ip := "1.2.3.4" }] ∧
    (KDEndpoint.process_labels badIpEndpoint).ipv4_nat = none :=
  ⟨((C2_process_labels_nat natEndpoint (by decide)).1 "1.2.3.4"
      (by decide) (by decide)).trans (by decide),
   (C2_process_labels_nat badIpEndpoint (by decide)).2.2 "not-an-ip"
      (by decide) (by decide)⟩

/-- C10: the JSON of a `KDEndpoint` carries the `ipv4_nat` key exactly when
the field is non-empty (neither `None` nor the empty list, both falsy in
the `if self.ipv4_nat` test); and for an endpoint with a valid public-IP
label but an empty list of internal IPv4 prefixes, `process_labels` sets
`ipv4_nat` to the empty list (not `None`) and the serialization omits the
key, coinciding with the serialization of the same endpoint with no NAT
mapping. -/
theorem C10_to_json_nat_key (e : KDEndpoint) :
    ((KDEndpoint.to_json e).ipv4_nat_key ≠ none ↔
      ∃ l, e.ipv4_nat = some l ∧ l ≠ []) ∧
    (e.ipv4_nets = [] → e.labels ≠ ∅ →
      ∀ v, e.labels.lookup "kuberdock-public-ip" = some v → isValidIP v = true →
        (KDEndpoint.process_labels e).ipv4_nat = some [] ∧
        KDEndpoint.to_json (KDEndpoint.process_labels e) =
          KDEndpoint.to_json { e with ipv4_nat := none }) := by
  constructor
  · unfold KDEndpoint.to_json
    cases e.ipv4_nat with
    | none => simp
    | some l =>
        cases l with
        | nil => simp
        | cons a t => simp
  · intro hnets h v hv hval
    rw [process_labels_of_valid e h v hv hval, hnets]
    exact ⟨rfl, rfl⟩

/-- Closed instance of C10 at an endpoint with a valid public-IP label and
no internal IPv4 prefixes. -/
theorem C10_to_json_nat_key_witness :
    (KDEndpoint.process_labels noNetsEndpoint).ipv4_nat = some [] ∧
    KDEndpoint.to_json (KDEndpoint.process_labels noNetsEndpoint) =
      KDEndpoint.to_json { noNetsEndpoint with ipv4_nat := none } :=
  (C10_to_json_nat_key noNetsEndpoint).2 rfl (by decide) "1.2.3.4"
    (by decide) (by decide)

/-- C4 fails on the code: `load_caches` never clears the caches before its
loop, so an entry for a workload that the datastore result set does not
contain survives the reload.  At this concrete state the `"k8s"` result set
is empty, yet the stale label-cache entry is still present afterwards. -/
theorem C4_counterexample :
    get_endpoints "k8s" staleState.datastore = [] ∧
    (load_caches staleState).1.label_cache.lookup "stale.pod" = some samplePodLabels :=
  ⟨rfl, by decide⟩

/-- C4 (amended): `load_caches` upserts from the `"k8s"` datastore result
set — after the reload, each workload that the result set contains maps to
its (last) converted endpoint and to that endpoint's labels in the two
caches, while entries for workloads absent from the result set are
retained unchanged, not discarded; the datastore itself is only read
(exactly once) and never written. -/
theorem C4_load_caches_upsert (s : HState) (w : String) :
    ((load_caches s).1.endpoint_cache.lookup w =
      match lastWith (reload_list s |>.map KDEndpoint.from_endpoint) w with
      | some ep => some ep
      | none => s.endpoint_cache.lookup w) ∧
    ((load_caches s).1.label_cache.lookup w =
      match lastWith (reload_list s |>.map KDEndpoint.from_endpoint) w with
      | some ep => some ep.labels
      | none => s.label_cache.lookup w) ∧
    (load_caches s).1.datastore = s.datastore ∧
    (load_caches s).2 = [DatastoreCall.get_endpoints_call] :=
  ⟨load_caches_ec_lookup s w, load_caches_lc_lookup s w, load_caches_datastore s, rfl⟩

/-- A reload that still misses workload `w` implies both that the datastore
result set has no endpoint for `w` and that the cache missed already before
the reload. -/
lemma load_miss_parts (s : HState) (w : String)
    (h3 : (load_caches s).1.endpoint_cache.lookup w = none) :
    lastWith (reload_list s |>.map KDEndpoint.from_endpoint) w = none ∧
      s.endpoint_cache.lookup w = none := by
  rw [load_caches_ec_lookup] at h3
  cases hL : lastWith (reload_list s |>.map KDEndpoint.from_endpoint) w with
  | some e =>
      rw [hL] at h3
      simp at h3
  | none =>
      rw [hL] at h3
      exact ⟨rfl, h3⟩

/-- C1: an update whose parsed label set equals the cached labels is a
complete no-op (no state change, no datastore call), and running
`update_pod` twice in a row with the same pod performs the `set_endpoint`
write at most on the first call: the second call writes nothing and leaves
the state exactly as the first call left it. -/
theorem C1_update_pod_idempotent (s : HState) (pod : Pod) :
    (s.label_cache.lookup (parse_pod pod).workload_id = some (parse_pod pod).labels →
      update_pod s pod = (s, [])) ∧
    (update_pod (update_pod s pod).1 pod).1 = (update_pod s pod).1 ∧
    numWrites (update_pod (update_pod s pod).1 pod).2 = 0 := by
  refine ⟨update_pod_unchanged s pod, ?_⟩
  by_cases h : s.label_cache.lookup (parse_pod pod).workload_id = some (parse_pod pod).labels
  · have h1 := update_pod_unchanged s pod h
    have hfst : (update_pod s pod).1 = s := by rw [h1]
    rw [hfst, h1]
    exact ⟨rfl, rfl⟩
  · cases h2 : s.endpoint_cache.lookup (parse_pod pod).workload_id with
    | some endpoint =>
        have h1 := update_pod_cached_hit s pod endpoint h h2
        have hfst : (update_pod s pod).1 =
            (write_endpoint s (parse_pod pod).workload_id (parse_pod pod).labels
              endpoint).1 := by
          rw [h1]
        have hlk : (write_endpoint s (parse_pod pod).workload_id (parse_pod pod).labels
            endpoint).1.label_cache.lookup (parse_pod pod).workload_id =
            some (parse_pod pod).labels := by
          rw [write_endpoint_fst_label_cache]
          exact Finmap.lookup_insert _
        have h4 := update_pod_unchanged _ pod hlk
        rw [hfst, h4]
        exact ⟨rfl, rfl⟩
    | none =>
        cases h3 : (load_caches s).1.endpoint_cache.lookup (parse_pod pod).workload_id with
        | some endpoint =>
            have h1 := update_pod_reload_hit s pod endpoint h h2 h3
            have hfst : (update_pod s pod).1 =
                (write_endpoint (load_caches s).1 (parse_pod pod).workload_id
                  (parse_pod pod).labels endpoint).1 := by
              rw [h1]
            have hlk : (write_endpoint (load_caches s).1 (parse_pod pod).workload_id
                (parse_pod pod).labels endpoint).1.label_cache.lookup
                  (parse_pod pod).workload_id = some (parse_pod pod).labels := by
              rw [write_endpoint_fst_label_cache]
              exact Finmap.lookup_insert _
            have h4 := update_pod_unchanged _ pod hlk
            rw [hfst, h4]
            exact ⟨rfl, rfl⟩
        | none =>
            have h1 := update_pod_reload_miss s pod h h2 h3
            have hfst : (update_pod s pod).1 = (load_caches s).1 := by rw [h1]
            obtain ⟨hLw, hsw⟩ := load_miss_parts s (parse_pod pod).workload_id h3
            have hlc : (load_caches s).1.label_cache.lookup (parse_pod pod).workload_id =
                s.label_cache.lookup (parse_pod pod).workload_id := by
              rw [load_caches_lc_lookup, hLw]
            have h' : ¬ (load_caches s).1.label_cache.lookup (parse_pod pod).workload_id =
                some (parse_pod pod).labels := by
              rw [hlc]
              exact h
            have h3' : (load_caches (load_caches s).1).1.endpoint_cache.lookup
                (parse_pod pod).workload_id = none := by
              rw [load_caches_ec_lookup, reload_list_load, hLw, h3]
            have h1' := update_pod_reload_miss (load_caches s).1 pod h' h3 h3'
            have hfst2 : (update_pod (load_caches s).1 pod).1 =
                (load_caches (load_caches s).1).1 := by rw [h1']
            have hsnd2 : (update_pod (load_caches s).1 pod).2 =
                [DatastoreCall.get_endpoints_call] := by rw [h1']
            rw [hfst, hfst2, hsnd2, load_caches_idem]
            exact ⟨rfl, rfl⟩

/-- Closed instance of C1 at a state that already caches the pod's parsed
labels: the update is a no-op and the repeated update changes nothing. -/
theorem C1_update_pod_idempotent_witness :
    update_pod cachedState samplePod = (cachedState, []) ∧
    (update_pod (update_pod cachedState samplePod).1 samplePod).1 =
      (update_pod cachedState samplePod).1 :=
  ⟨(C1_update_pod_idempotent cachedState samplePod).1 (by decide),
   (C1_update_pod_idempotent cachedState samplePod).2.1⟩

/-- C3: every `update_pod` invocation makes at most one `get_endpoints`
read and at most one `set_endpoint` write; and when the labels differ from
the cached ones while the endpoint cache misses, exactly one reload read is
made, and if the endpoint is still absent after the reload the handler
returns — with the reload as its only datastore call, so nothing was
written and the datastore is unchanged. -/
theorem C3_update_pod_reload_once (s : HState) (pod : Pod) :
    numReads (update_pod s pod).2 ≤ 1 ∧
    numWrites (update_pod s pod).2 ≤ 1 ∧
    (s.label_cache.lookup (parse_pod pod).workload_id ≠ some (parse_pod pod).labels →
     s.endpoint_cache.lookup (parse_pod pod).workload_id = none →
     numReads (update_pod s pod).2 = 1 ∧
     ((load_caches s).1.endpoint_cache.lookup (parse_pod pod).workload_id = none →
       update_pod s pod = ((load_caches s).1, [DatastoreCall.get_endpoints_call]) ∧
       numWrites (update_pod s pod).2 = 0 ∧
       (update_pod s pod).1.datastore = s.datastore)) := by
  by_cases h : s.label_cache.lookup (parse_pod pod).workload_id = some (parse_pod pod).labels
  · have h1 := update_pod_unchanged s pod h
    have hsnd : (update_pod s pod).2 = [] := by rw [h1]
    rw [hsnd]
    exact ⟨Nat.zero_le 1, Nat.zero_le 1, fun hneq => absurd h hneq⟩
  · cases h2 : s.endpoint_cache.lookup (parse_pod pod).workload_id with
    | some endpoint =>
        have h1 := update_pod_cached_hit s pod endpoint h h2
        have hsnd : (update_pod s pod).2 =
            [DatastoreCall.set_endpoint_call (KDEndpoint.process_labels
              { endpoint with labels := (parse_pod pod).labels })] := by
          rw [h1, write_endpoint_snd]
        rw [hsnd]
        refine ⟨Nat.zero_le 1, Nat.le.refl, fun hneq h2' => ?_⟩
        exact Option.noConfusion h2'
    | none =>
        cases h3 : (load_caches s).1.endpoint_cache.lookup (parse_pod pod).workload_id with
        | some endpoint =>
            have h1 := update_pod_reload_hit s pod endpoint h h2 h3
            have hsnd : (update_pod s pod).2 =
                [DatastoreCall.get_endpoints_call,
                 DatastoreCall.set_endpoint_call (KDEndpoint.process_labels
                   { endpoint with labels := (parse_pod pod).labels })] := by
              rw [h1, write_endpoint_snd]
            rw [hsnd]
            refine ⟨Nat.le.refl, Nat.le.refl, fun hneq h2' => ⟨rfl, fun h3' => ?_⟩⟩
            exact Option.noConfusion h3'
        | none =>
            have h1 := update_pod_reload_miss s pod h h2 h3
            have hsnd : (update_pod s pod).2 = [DatastoreCall.get_endpoints_call] := by
              rw [h1]
            have hfst : (update_pod s pod).1 = (load_caches s).1 := by rw [h1]
            rw [hsnd]
            refine ⟨Nat.le.refl, Nat.zero_le 1,
              fun hneq h2' => ⟨rfl, fun h3' => ⟨h1, rfl, ?_⟩⟩⟩
            rw [hfst, load_caches_datastore]

/-- Closed instance of C3 at empty caches over an empty datastore: the
update reloads exactly once, finds nothing, writes nothing. -/
theorem C3_update_pod_reload_once_witness :
    numReads (update_pod emptyState samplePod).2 = 1 ∧
    update_pod emptyState samplePod =
      ((load_caches emptyState).1, [DatastoreCall.get_endpoints_call]) ∧
    numWrites (update_pod emptyState samplePod).2 = 0 ∧
    (update_pod emptyState samplePod).1.datastore = emptyState.datastore := by
  have h := (C3_update_pod_reload_once emptyState samplePod).2.2 (by decide) (by decide)
  have h4 := h.2 (by decide)
  exact ⟨h.1, h4.1, h4.2.1, h4.2.2⟩

/-- C8: whenever `update_pod` performs the datastore write, both caches are
updated at the same call site — afterwards the label cache maps the parsed
workload id to the new label set and the endpoint cache maps it to the very
endpoint that was written, which carries exactly those labels; the
Add and Delete handlers never write to the datastore at all. -/
theorem C8_caches_consistent_on_write (s : HState) (pod : Pod) (ep : KDEndpoint) :
    (add_pod s pod).2 = [] ∧
    (delete_pod s pod).2 = [] ∧
    (DatastoreCall.set_endpoint_call ep ∈ (update_pod s pod).2 →
      (update_pod s pod).1.label_cache.lookup (parse_pod pod).workload_id =
        some (parse_pod pod).labels ∧
      (update_pod s pod).1.endpoint_cache.lookup (parse_pod pod).workload_id = some ep ∧
      ep.labels = (parse_pod pod).labels) := by
  refine ⟨rfl, rfl, fun hmem => ?_⟩
  by_cases h : s.label_cache.lookup (parse_pod pod).workload_id = some (parse_pod pod).labels
  · rw [update_pod_unchanged s pod h] at hmem
    simp at hmem
  · cases h2 : s.endpoint_cache.lookup (parse_pod pod).workload_id with
    | some endpoint =>
        have h1 := update_pod_cached_hit s pod endpoint h h2
        have hsnd : (update_pod s pod).2 =
            [DatastoreCall.set_endpoint_call (KDEndpoint.process_labels
              { endpoint with labels := (parse_pod pod).labels })] := by
          rw [h1, write_endpoint_snd]
        have hfst : (update_pod s pod).1 =
            (write_endpoint s (parse_pod pod).workload_id (parse_pod pod).labels
              endpoint).1 := by
          rw [h1]
        rw [hsnd] at hmem
        simp only [List.mem_singleton, DatastoreCall.set_endpoint_call.injEq] at hmem
        subst hmem
        rw [hfst]
        refine ⟨?_, ?_, ?_⟩
        · rw [write_endpoint_fst_label_cache]
          exact Finmap.lookup_insert _
        · rw [write_endpoint_fst_endpoint_cache]
          exact Finmap.lookup_insert _
        · rw [process_labels_labels]
    | none =>
        cases h3 : (load_caches s).1.endpoint_cache.lookup (parse_pod pod).workload_id with
        | none =>
            have h1 := update_pod_reload_miss s pod h h2 h3
            have hsnd : (update_pod s pod).2 = [DatastoreCall.get_endpoints_call] := by
              rw [h1]
            rw [hsnd] at hmem
            simp at hmem
        | some endpoint =>
            have h1 := update_pod_reload_hit s pod endpoint h h2 h3
            have hsnd : (update_pod s pod).2 =
                [DatastoreCall.get_endpoints_call,
                 DatastoreCall.set_endpoint_call (KDEndpoint.process_labels
                   { endpoint with labels := (parse_pod pod).labels })] := by
              rw [h1, write_endpoint_snd]
            have hfst : (update_pod s pod).1 =
                (write_endpoint (load_caches s).1 (parse_pod pod).workload_id
                  (parse_pod pod).labels endpoint).1 := by
              rw [h1]
            rw [hsnd] at hmem
            simp only [List.mem_cons, List.mem_singleton, List.not_mem_nil, or_false,
              DatastoreCall.set_endpoint_call.injEq, reduceCtorEq, false_or] at hmem
            subst hmem
            rw [hfst]
            refine ⟨?_, ?_, ?_⟩
            · rw [write_endpoint_fst_label_cache]
              exact Finmap.lookup_insert _
            · rw [write_endpoint_fst_endpoint_cache]
              exact Finmap.lookup_insert _
            · rw [process_labels_labels]

/-- Closed instance of C8: at a state caching the endpoint with stale
labels, the update writes one endpoint and both caches immediately agree
with the write. -/
theorem C8_caches_consistent_on_write_witness :
    DatastoreCall.set_endpoint_call writtenEndpoint ∈ (update_pod sampleState samplePod).2 ∧
    ((update_pod sampleState samplePod).1.label_cache.lookup
        (parse_pod samplePod).workload_id = some (parse_pod samplePod).labels ∧
      (update_pod sampleState samplePod).1.endpoint_cache.lookup
        (parse_pod samplePod).workload_id = some writtenEndpoint ∧
      writtenEndpoint.labels = (parse_pod samplePod).labels) :=
  have hmem : DatastoreCall.set_endpoint_call writtenEndpoint ∈
      (update_pod sampleState samplePod).2 := by decide
  ⟨hmem, (C8_caches_consistent_on_write sampleState samplePod writtenEndpoint).2.2 hmem⟩
